import Mathlib

/-!
A shallow embedding of the multi-agent routing and turn-taking control flow
of the repository (src/graph/nodes.py, src/graph/builder.py, src/graph/state.py,
src/tools/gmail_tools/read_email.py, src/tools/gmail_tools/reply_to_email.py).

Modelling conventions:
* The LangGraph state (`UnifiedState`, src/graph/state.py) becomes the
  structure `GraphState`; optional keys become `Option` fields, and
  `state.get(key, default)` becomes `Option.getD`.
* A node returns a partial state update (`StateUpdate`); the LangGraph
  channel semantics (`add_messages` appends, every other key is
  last-write-wins) become `applyUpdate`.
* LLM calls and the Python `json.loads` / Gmail service are external
  effects; they enter as explicit function or result parameters.
* A `Command(goto=..., update=...)` becomes `NodeCommand`.
-/

/-- One entry of the `messages` channel, as the nodes write it:
`\x7b"role": ..., "content": ...\x7d` (src/graph/nodes.py). -/
structure Msg where
  role : String
  content : String
deriving DecidableEq

/-- An email record as used by the Gmail tools: the cached list entries are
dicts with an `id` key, and `get_email` returns subject/from/date/body
(src/tools/gmail_tools/read_email.py). -/
structure Email where
  id : String
  subject : String
  from_ : String
  date : String
  body : String
deriving DecidableEq

/-- A calendar event record; the control-flow claims never inspect its
fields, only whether the cached `events` list is changed. -/
structure Event where
  id : String
deriving DecidableEq

/-- `UnifiedState` from src/graph/state.py, restricted to the keys the
routing control flow reads or writes. -/
structure GraphState where
  messages : List Msg
  user_query : String
  agent_response : String
  continue_conversation : Bool
  agent_type : Option String
  execution_order : Option String
  gmail_instruction : Option String
  calendar_instruction : Option String
  emails : Option (List Email)
  events : Option (List Event)
deriving DecidableEq

/-- A partial state update as returned by a node; `none` means the key is
absent from the returned dict. The `messages` list is appended by the
`add_messages` reducer declared in src/graph/state.py. -/
structure StateUpdate where
  messages : List Msg
  user_query : Option String
  agent_response : Option String
  continue_conversation : Option Bool
  agent_type : Option String
  execution_order : Option String
  gmail_instruction : Option String
  calendar_instruction : Option String
  emails : Option (List Email)
  events : Option (List Event)
deriving DecidableEq

/-- The empty update: a node that returns `\x7b\x7d`. -/
def emptyUpdate : StateUpdate :=
  ⟨[], none, none, none, none, none, none, none, none, none⟩

/-- LangGraph channel semantics: `messages` has the `add_messages` reducer
(append); every other key written by a node replaces the stored value. -/
def applyUpdate (s : GraphState) (u : StateUpdate) : GraphState where
  messages := s.messages ++ u.messages
  user_query := u.user_query.getD s.user_query
  agent_response := u.agent_response.getD s.agent_response
  continue_conversation := u.continue_conversation.getD s.continue_conversation
  agent_type := u.agent_type <|> s.agent_type
  execution_order := u.execution_order <|> s.execution_order
  gmail_instruction := u.gmail_instruction <|> s.gmail_instruction
  calendar_instruction := u.calendar_instruction <|> s.calendar_instruction
  emails := u.emails <|> s.emails
  events := u.events <|> s.events

/-- The dynamic routing targets of a `Command` in src/graph/nodes.py:
the literal node names and the LangGraph `END` sentinel. -/
inductive GotoTarget where
  | user_input
  | gmail_agent
  | calendar_agent
  | endGraph
deriving DecidableEq

/-- `Command(goto=..., update=...)` as returned by the two specialist
nodes (src/graph/nodes.py). -/
structure NodeCommand where
  goto : GotoTarget
  update : StateUpdate
deriving DecidableEq

/-- The nodes registered in `create_graph` (src/graph/builder.py). -/
inductive GraphNode where
  | user_input
  | orchestrator
  | gmail_agent
  | calendar_agent
deriving DecidableEq

/-- `user_input_node` (src/graph/nodes.py lines 18-40): re-stores the
current `user_query`, sets `continue_conversation` to true and appends one
user-role message whose content is the query. -/
def user_input_node (s : GraphState) : StateUpdate :=
  { emptyUpdate with
      user_query := some s.user_query
      continue_conversation := some true
      messages := [⟨"user", s.user_query⟩] }

/-- `should_continue` (src/graph/nodes.py lines 194-198). -/
def should_continue (s : GraphState) : String :=
  if s.continue_conversation then "continue" else "end"

example : should_continue (applyUpdate
    ⟨[], "q", "", false, none, none, none, none, none, none⟩
    (user_input_node ⟨[], "q", "", false, none, none, none, none, none, none⟩))
    = "continue" := by decide

/-- The routing decision parsed out of the orchestrator response
(src/graph/nodes.py lines 219-243). -/
structure RoutingDecision where
  agent_type : String
  reasoning : String
  execution_order : String
  gmail_instruction : String
  calendar_instruction : String
deriving DecidableEq

/-- The fallback decision built when parsing fails
(src/graph/nodes.py lines 236-243). -/
def defaultDecision (user_query : String) : RoutingDecision where
  agent_type := "gmail"
  reasoning := "Failed to parse orchestrator response, defaulting to Gmail"
  execution_order := "gmail_first"
  gmail_instruction := user_query
  calendar_instruction := user_query

/-- Python `text.find(c)`: index of the first occurrence, if any. -/
def pyFind (text : String) (c : Char) : Option Nat :=
  text.toList.findIdx? (fun d => d = c)

/-- Python `text.rfind(c)`: index of the last occurrence, if any. -/
def pyRFind (text : String) (c : Char) : Option Nat :=
  match text.toList.reverse.findIdx? (fun d => d = c) with
  | none => none
  | some i => some (text.toList.length - 1 - i)

/-- The span `response_text[json_start:json_end]` that `orchestrator_node`
extracts before calling `json.loads` (src/graph/nodes.py lines 223-226):
from the first `\x7b` to the last `\x7d` inclusive. `none` when one of the
two braces is missing, in which case the code raises and falls back. -/
def jsonSpan (text : String) : Option String :=
  match pyFind text '{', pyRFind text '}' with
  | some js, some je => some (String.mk ((text.toList.drop js).take (je + 1 - js)))
  | _, _ => none

/-- A parsed JSON object, abstracted to its string-valued fields; the
`json.loads` call itself is an external dependency and enters as the
`loads` parameter below. -/
abbrev JsonObj := List (String × String)

/-- The classification pipeline of `orchestrator_node`
(src/graph/nodes.py lines 216-243): extract the first-`\x7b`-to-last-`\x7d`
span, parse it, and read each field with `parsed.get(key, default)`;
any parse failure degrades to `defaultDecision`. -/
def classifyFromText (loads : String → Option JsonObj)
    (user_query text : String) : RoutingDecision :=
  match jsonSpan text with
  | none => defaultDecision user_query
  | some span =>
    match loads span with
    | none => defaultDecision user_query
    | some parsed =>
      { agent_type := (parsed.lookup "agent_type").getD "gmail"
        reasoning := (parsed.lookup "reasoning").getD "No reasoning provided"
        execution_order := (parsed.lookup "execution_order").getD "gmail_first"
        gmail_instruction := (parsed.lookup "gmail_instruction").getD user_query
        calendar_instruction := (parsed.lookup "calendar_instruction").getD user_query }

/-- `orchestrator_node` (src/graph/nodes.py lines 201-284) as a state
update. `runResult` is the orchestrator LLM call: `none` models
`orchestrator.run` raising (the outer `except` path, lines 275-284),
`some text` is the raw response text. On `agent_type == "terminate"` the
update additionally sets `continue_conversation` to false. -/
def orchestrator_node (loads : String → Option JsonObj)
    (runResult : Option String) (s : GraphState) : StateUpdate :=
  match runResult with
  | none =>
    { emptyUpdate with
        agent_type := some "gmail"
        execution_order := some "gmail_first"
        gmail_instruction := some s.user_query
        calendar_instruction := some s.user_query }
  | some text =>
    let d := classifyFromText loads s.user_query text
    if d.agent_type = "terminate" then
      { emptyUpdate with
          agent_type := some d.agent_type
          continue_conversation := some false
          execution_order := some d.execution_order
          gmail_instruction := some d.gmail_instruction
          calendar_instruction := some d.calendar_instruction }
    else
      { emptyUpdate with
          agent_type := some d.agent_type
          execution_order := some d.execution_order
          gmail_instruction := some d.gmail_instruction
          calendar_instruction := some d.calendar_instruction }

/-- `route_to_agent` (src/graph/nodes.py lines 287-309): the conditional
edge function run on the state after the orchestrator update. -/
def route_to_agent (s : GraphState) : String :=
  let agent_type := s.agent_type.getD "gmail"
  let execution_order := s.execution_order.getD "gmail_first"
  if agent_type = "terminate" then "END"
  else if agent_type = "calendar" then "calendar_agent"
  else if agent_type = "both" then
    if execution_order = "calendar_first" then "calendar_agent"
    else "gmail_agent"
  else "gmail_agent"

/-- The path map of the conditional edge registered on the orchestrator
node in `create_graph` (src/graph/builder.py lines 45-52): only
`"gmail_agent"` and `"calendar_agent"` are mapped; any other router output
has no destination (LangGraph fails the branch lookup at run time). -/
def orchPathMap (r : String) : Option GraphNode :=
  if r = "gmail_agent" then some GraphNode.gmail_agent
  else if r = "calendar_agent" then some GraphNode.calendar_agent
  else none

/-- Python `sep.join(parts)`. -/
def joinSep (sep : String) : List String → String
  | [] => ""
  | [p] => p
  | p :: q :: ps => p ++ sep ++ joinSep sep (q :: ps)

/-- Python `l[-n:]` for `n > 0`: the last `n` entries (the whole list when
it is shorter than `n`). -/
def lastN (n : Nat) {α : Type} (l : List α) : List α :=
  l.drop (l.length - n)

/-- One `context_parts` entry (src/graph/nodes.py line 94): the dict
branch, `role ++ ": " ++ content`, for messages stored as role/content
records. -/
def formatMsg (m : Msg) : String :=
  m.role ++ ": " ++ m.content

/-- The conversation context a specialist node passes to its LLM run
(src/graph/nodes.py lines 77-97 for Gmail, 343-363 for Calendar): the
bare instruction when there is no history, otherwise a header, the last
five messages formatted one per line, and the current instruction. -/
def buildConversationContext (instruction : String) (existing : List Msg) : String :=
  if existing.isEmpty then instruction
  else
    let parts := (lastN 5 existing).map formatMsg
    if parts.isEmpty then instruction
    else "Previous conversation:\n" ++ joinSep "\n" parts
         ++ "\n\nCurrent question: " ++ instruction

/-- The context the Gmail node builds from the state
(src/graph/nodes.py lines 49, 59, 77-97). -/
def gmailContext (s : GraphState) : String :=
  buildConversationContext (s.gmail_instruction.getD s.user_query) s.messages

/-- The context the Calendar node builds from the state
(src/graph/nodes.py lines 317, 325, 343-363). -/
def calendarContext (s : GraphState) : String :=
  buildConversationContext (s.calendar_instruction.getD s.user_query) s.messages

/-- The outcome of one specialist LLM run (an external effect):
either the agent finished with a response text, the observed
`end_conversation` tool-call flag and the in-place mutated deps cache,
or it raised an exception carrying a message. -/
inductive AgentRunResult (α : Type) where
  | ok (response : String) (end_conversation_called : Bool) (cacheAfter : List α)
  | exn (msg : String)
deriving DecidableEq

/-- `gmail_agent_node` (src/graph/nodes.py lines 43-191) given the
outcome of its agent run. Branch order follows the source: the
both/gmail_first branch is tested before the `end_conversation_called`
branch; the `except` handler returns the error command. -/
def gmail_agent_node (run : AgentRunResult Email) (s : GraphState) : NodeCommand :=
  match run with
  | .exn e =>
    let error_msg := "Error processing Gmail query: " ++ e
    ⟨GotoTarget.user_input,
      { emptyUpdate with
          agent_response := some error_msg
          messages := [⟨"assistant", error_msg⟩]
          continue_conversation := some true }⟩
  | .ok response end_conversation_called emailsAfter =>
    let emailsUpd : Option (List Email) :=
      if emailsAfter.isEmpty then none else some emailsAfter
    let agent_type := s.agent_type.getD "gmail"
    let execution_order := s.execution_order.getD "gmail_first"
    if agent_type = "both" ∧ execution_order = "gmail_first" then
      ⟨GotoTarget.calendar_agent,
        { emptyUpdate with
            agent_response := some response
            messages := [⟨"assistant", response⟩]
            continue_conversation := some (!end_conversation_called)
            emails := emailsUpd }⟩
    else if end_conversation_called then
      ⟨GotoTarget.endGraph,
        { emptyUpdate with
            agent_response := some response
            messages := [⟨"assistant", response⟩]
            continue_conversation := some false
            emails := emailsUpd }⟩
    else
      ⟨GotoTarget.user_input,
        { emptyUpdate with
            agent_response := some response
            messages := [⟨"assistant", response⟩]
            continue_conversation := some true
            emails := emailsUpd }⟩

/-- `calendar_agent_node` (src/graph/nodes.py lines 312-456) given the
outcome of its agent run; symmetric to the Gmail node, with the
both/calendar_first branch tested before `end_conversation_called`. -/
def calendar_agent_node (run : AgentRunResult Event) (s : GraphState) : NodeCommand :=
  match run with
  | .exn e =>
    let error_msg := "Error processing Calendar query: " ++ e
    ⟨GotoTarget.user_input,
      { emptyUpdate with
          agent_response := some error_msg
          messages := [⟨"assistant", error_msg⟩]
          continue_conversation := some true }⟩
  | .ok response end_conversation_called eventsAfter =>
    let eventsUpd : Option (List Event) :=
      if eventsAfter.isEmpty then none else some eventsAfter
    let agent_type := s.agent_type.getD "calendar"
    let execution_order := s.execution_order.getD "gmail_first"
    if agent_type = "both" ∧ execution_order = "calendar_first" then
      ⟨GotoTarget.gmail_agent,
        { emptyUpdate with
            agent_response := some response
            messages := [⟨"assistant", response⟩]
            continue_conversation := some (!end_conversation_called)
            events := eventsUpd }⟩
    else if end_conversation_called then
      ⟨GotoTarget.endGraph,
        { emptyUpdate with
            agent_response := some response
            messages := [⟨"assistant", response⟩]
            continue_conversation := some false
            events := eventsUpd }⟩
    else
      ⟨GotoTarget.user_input,
        { emptyUpdate with
            agent_response := some response
            messages := [⟨"assistant", response⟩]
            continue_conversation := some true
            events := eventsUpd }⟩

/-- The observable outcome of a Python tool body: either it returns a
string, or it raises `IndexError` from an unguarded list subscript. The
tools below are supposed to make the second constructor unreachable. -/
inductive ToolOutcome where
  | ret (s : String)
  | indexError
deriving DecidableEq

/-- Sixty `=` characters (src/tools/gmail_tools/read_email.py line 29). -/
def eqRule : String := String.mk (List.replicate 60 '=')

/-- Sixty `-` characters (src/tools/gmail_tools/read_email.py line 35). -/
def dashRule : String := String.mk (List.replicate 60 '-')

/-- The guard message of `read_email` for an empty cache
(src/tools/gmail_tools/read_email.py line 17). -/
def noEmailsReadMsg : String :=
  "No emails in context. Please list or search for emails first."

/-- The guard message of `reply_to_email` for an empty cache
(src/tools/gmail_tools/reply_to_email.py line 18). -/
def noEmailsReplyMsg : String :=
  "No emails in context. Please list emails first."

/-- The out-of-range message shared by both tools
(src/tools/gmail_tools/read_email.py line 20). -/
def invalidNumberMsg (n : Nat) : String :=
  "Invalid email number. Please choose between 1 and " ++ toString n ++ "."

/-- The body of `read_email` after the ordinal has been resolved to a
cached entry (src/tools/gmail_tools/read_email.py lines 23-41):
fetch the full email and format it, truncating the body to 1500
characters. -/
def readFetch (get_email : String → Option Email) (em : Email) : String :=
  match get_email em.id with
  | none => "Could not retrieve email details."
  | some email =>
    joinSep "\n"
      [ "\n" ++ eqRule
      , "EMAIL DETAILS"
      , eqRule
      , "\nSubject: " ++ email.subject
      , "From: " ++ email.from_
      , "Date: " ++ email.date
      , "\n" ++ dashRule
      , "\n" ++ email.body.take 1500
      , "\n" ++ dashRule
      , eqRule ]

/-- `read_email` (src/tools/gmail_tools/read_email.py): guard an empty
cache, guard the 1-indexed range, then subscript `emails[email_number - 1]`
(modelled by the `getElem?` lookup, whose `none` case is the Python
`IndexError`). -/
def read_email (get_email : String → Option Email)
    (emails : List Email) (email_number : Int) : ToolOutcome :=
  if emails.isEmpty then ToolOutcome.ret noEmailsReadMsg
  else if email_number < 1 ∨ (emails.length : Int) < email_number then
    ToolOutcome.ret (invalidNumberMsg emails.length)
  else
    match emails[(email_number - 1).toNat]? with
    | none => ToolOutcome.indexError
    | some em => ToolOutcome.ret (readFetch get_email em)

/-- The tail of `reply_to_email` after ordinal resolution
(src/tools/gmail_tools/reply_to_email.py lines 24-29). -/
def replySend (reply_svc : String → String → Bool)
    (em : Email) (email_number : Int) (reply_body : String) : String :=
  if reply_svc em.id reply_body then
    "Reply sent successfully to email " ++ toString email_number
  else "Failed to send reply"

/-- `reply_to_email` (src/tools/gmail_tools/reply_to_email.py): the same
guard structure as `read_email`. -/
def reply_to_email (reply_svc : String → String → Bool)
    (emails : List Email) (email_number : Int) (reply_body : String) : ToolOutcome :=
  if emails.isEmpty then ToolOutcome.ret noEmailsReplyMsg
  else if email_number < 1 ∨ (emails.length : Int) < email_number then
    ToolOutcome.ret (invalidNumberMsg emails.length)
  else
    match emails[(email_number - 1).toNat]? with
    | none => ToolOutcome.indexError
    | some em => ToolOutcome.ret (replySend reply_svc em email_number reply_body)

/-! ## Helper lemmas -/

/-- A string with a non-empty left part of an append is non-empty. -/
theorem append_ne_empty_of_left_ne_empty (a b : String) (h : a.length ≠ 0) :
    a ++ b ≠ "" := by
  intro hab
  have hl := congrArg String.length hab
  rw [String.length_append, String.length_empty] at hl
  omega

/-! ## C10 -/

/-- C10: after every execution of the user_input node,
`continue_conversation` is true and a user-role message whose content is
exactly the current `user_query` has been appended to `messages`; the
`should_continue` check that follows therefore returns "continue". -/
theorem c10_user_input_always_continues (s : GraphState) :
    (applyUpdate s (user_input_node s)).continue_conversation = true
    ∧ (applyUpdate s (user_input_node s)).messages
        = s.messages ++ [⟨"user", s.user_query⟩]
    ∧ should_continue (applyUpdate s (user_input_node s)) = "continue" :=
  ⟨rfl, rfl, rfl⟩

/-! ## C6 -/

/-- C6: an exception inside a specialist run produces a command that
returns to `user_input` with `continue_conversation` true and a non-empty
error text recorded both as the agent response and as one assistant
message; this holds for both specialist nodes, so the control loop never
exits abnormally on a specialist failure. -/
theorem c6_specialist_errors_contained (s t : GraphState) (e f : String) :
    (gmail_agent_node (AgentRunResult.exn e) s).goto = GotoTarget.user_input
    ∧ (gmail_agent_node (AgentRunResult.exn e) s).update.continue_conversation = some true
    ∧ (gmail_agent_node (AgentRunResult.exn e) s).update.agent_response
        = some ("Error processing Gmail query: " ++ e)
    ∧ (gmail_agent_node (AgentRunResult.exn e) s).update.messages
        = [⟨"assistant", "Error processing Gmail query: " ++ e⟩]
    ∧ ("Error processing Gmail query: " ++ e) ≠ ""
    ∧ (applyUpdate s (gmail_agent_node (AgentRunResult.exn e) s).update).continue_conversation = true
    ∧ (calendar_agent_node (AgentRunResult.exn f) t).goto = GotoTarget.user_input
    ∧ (calendar_agent_node (AgentRunResult.exn f) t).update.continue_conversation = some true
    ∧ (calendar_agent_node (AgentRunResult.exn f) t).update.agent_response
        = some ("Error processing Calendar query: " ++ f)
    ∧ (calendar_agent_node (AgentRunResult.exn f) t).update.messages
        = [⟨"assistant", "Error processing Calendar query: " ++ f⟩]
    ∧ ("Error processing Calendar query: " ++ f) ≠ ""
    ∧ (applyUpdate t (calendar_agent_node (AgentRunResult.exn f) t).update).continue_conversation = true :=
  ⟨rfl, rfl, rfl, rfl, append_ne_empty_of_left_ne_empty _ _ (by decide),
   rfl, rfl, rfl, rfl, rfl, append_ne_empty_of_left_ne_empty _ _ (by decide), rfl⟩

/-! ## C9 -/

/-- C9: on the specialist error path the update writes only
`agent_response`, exactly one assistant message and
`continue_conversation`; every other key is absent, so in particular the
cached `emails` and `events` lists of the state are unchanged after the
failed turn. -/
theorem c9_error_path_frame (s t : GraphState) (e f : String) :
    (gmail_agent_node (AgentRunResult.exn e) s).update.emails = none
    ∧ (gmail_agent_node (AgentRunResult.exn e) s).update.events = none
    ∧ (gmail_agent_node (AgentRunResult.exn e) s).update.user_query = none
    ∧ (gmail_agent_node (AgentRunResult.exn e) s).update.agent_type = none
    ∧ (gmail_agent_node (AgentRunResult.exn e) s).update.execution_order = none
    ∧ (gmail_agent_node (AgentRunResult.exn e) s).update.gmail_instruction = none
    ∧ (gmail_agent_node (AgentRunResult.exn e) s).update.calendar_instruction = none
    ∧ (gmail_agent_node (AgentRunResult.exn e) s).update.messages.length = 1
    ∧ (gmail_agent_node (AgentRunResult.exn e) s).update.agent_response.isSome = true
    ∧ (gmail_agent_node (AgentRunResult.exn e) s).update.continue_conversation.isSome = true
    ∧ (applyUpdate s (gmail_agent_node (AgentRunResult.exn e) s).update).emails = s.emails
    ∧ (applyUpdate s (gmail_agent_node (AgentRunResult.exn e) s).update).events = s.events
    ∧ (calendar_agent_node (AgentRunResult.exn f) t).update.emails = none
    ∧ (calendar_agent_node (AgentRunResult.exn f) t).update.events = none
    ∧ (calendar_agent_node (AgentRunResult.exn f) t).update.user_query = none
    ∧ (calendar_agent_node (AgentRunResult.exn f) t).update.agent_type = none
    ∧ (calendar_agent_node (AgentRunResult.exn f) t).update.execution_order = none
    ∧ (calendar_agent_node (AgentRunResult.exn f) t).update.gmail_instruction = none
    ∧ (calendar_agent_node (AgentRunResult.exn f) t).update.calendar_instruction = none
    ∧ (calendar_agent_node (AgentRunResult.exn f) t).update.messages.length = 1
    ∧ (calendar_agent_node (AgentRunResult.exn f) t).update.agent_response.isSome = true
    ∧ (calendar_agent_node (AgentRunResult.exn f) t).update.continue_conversation.isSome = true
    ∧ (applyUpdate t (calendar_agent_node (AgentRunResult.exn f) t).update).emails = t.emails
    ∧ (applyUpdate t (calendar_agent_node (AgentRunResult.exn f) t).update).events = t.events :=
  ⟨rfl, rfl, rfl, rfl, rfl, rfl, rfl, rfl, rfl, rfl, rfl, rfl,
   rfl, rfl, rfl, rfl, rfl, rfl, rfl, rfl, rfl, rfl, rfl, rfl⟩

/-! ## C8 -/

/-- C8: the conversation window a specialist node formats into its LLM
context is the message history truncated to its last five entries: it has
length at most five, it is a suffix of the history, and prepending any
older history in front of an at-least-five-message tail does not change
the built context at all. -/
theorem c8_context_bounded_to_last_five (instruction : String) (pre msgs : List Msg) :
    (lastN 5 msgs).length ≤ 5
    ∧ List.IsSuffix (lastN 5 msgs) msgs
    ∧ (5 ≤ msgs.length →
        buildConversationContext instruction (pre ++ msgs)
          = buildConversationContext instruction msgs) := by
  refine ⟨?_, ?_, ?_⟩
  · rw [lastN, List.length_drop]
    omega
  · exact List.drop_suffix _ _
  · intro h
    have hw : lastN 5 (pre ++ msgs) = lastN 5 msgs := by
      rw [lastN, lastN, List.length_append, List.drop_append_eq_append_drop,
        List.drop_eq_nil_of_le (by omega), List.nil_append]
      congr 1
      omega
    have hm : msgs ≠ [] := by
      intro h0
      rw [h0] at h
      simp at h
    have hpm : pre ++ msgs ≠ [] := by
      intro h0
      rcases List.append_eq_nil.mp h0 with ⟨_, h2⟩
      exact hm h2
    have hlen5 : (lastN 5 msgs).length = 5 := by
      rw [lastN, List.length_drop]
      omega
    have hlast : lastN 5 msgs ≠ [] := by
      intro h0
      have hc := congrArg List.length h0
      rw [hlen5] at hc
      simp at hc
    simp [buildConversationContext, hw, List.isEmpty_iff, hm, hpm, hlast]

/-! ## C2 -/

/-- A character search over a list misses when the character is absent. -/
theorem findIdx_none_of_not_mem (l : List Char) (c : Char) (h : c ∉ l) :
    l.findIdx? (fun d => d = c) = none := by
  rw [List.findIdx?_eq_none_iff]
  intro x hx
  simp only [decide_eq_false_iff_not]
  intro he
  rw [he] at hx
  exact h hx

/-- When either brace is missing from the response text, the extracted
span is `none` (the `ValueError` fallback of src/graph/nodes.py
lines 233-235). -/
theorem jsonSpan_none_of_missing_brace (text : String)
    (h : '{' ∉ text.toList ∨ '}' ∉ text.toList) : jsonSpan text = none := by
  rcases h with h | h
  · have h1 : pyFind text '{' = none := findIdx_none_of_not_mem _ _ h
    simp [jsonSpan, h1]
  · have h2 : pyRFind text '}' = none := by
      rw [pyRFind, findIdx_none_of_not_mem]
      intro hx
      exact h (List.mem_reverse.mp hx)
    cases h1 : pyFind text '{' with
    | none => simp [jsonSpan, h1]
    | some i => simp [jsonSpan, h1, h2]

/-- C2 (amended): when the orchestrator output holds no brace-delimited
span, or the extracted span is not a parseable JSON object, classification
returns exactly the default decision; when the span parses as a JSON
object, each absent field is defaulted individually (agent_type `gmail`,
execution_order `gmail_first`, both instructions the original query)
while present fields are kept; in every case a `RoutingDecision` value is
produced, never an error. -/
theorem c2_parse_failure_defaults (loads : String → Option JsonObj)
    (q text : String) :
    (('{' ∉ text.toList ∨ '}' ∉ text.toList) →
      classifyFromText loads q text = defaultDecision q)
    ∧ (∀ span, jsonSpan text = some span → loads span = none →
        classifyFromText loads q text = defaultDecision q)
    ∧ (∀ span parsed, jsonSpan text = some span → loads span = some parsed →
        ((parsed.lookup "agent_type" = none →
            (classifyFromText loads q text).agent_type = "gmail")
        ∧ (parsed.lookup "execution_order" = none →
            (classifyFromText loads q text).execution_order = "gmail_first")
        ∧ (parsed.lookup "gmail_instruction" = none →
            (classifyFromText loads q text).gmail_instruction = q)
        ∧ (parsed.lookup "calendar_instruction" = none →
            (classifyFromText loads q text).calendar_instruction = q))) := by
  refine ⟨?_, ?_, ?_⟩
  · intro h
    simp [classifyFromText, jsonSpan_none_of_missing_brace text h]
  · intro span h1 h2
    simp [classifyFromText, h1, h2]
  · intro span parsed h1 h2
    refine ⟨?_, ?_, ?_, ?_⟩ <;> intro h3 <;>
      simp [classifyFromText, h1, h2, h3]

/-- A concrete stand-in for `json.loads` at the single input the C2
counterexample needs: the object text `\x7b"agent_type": "calendar"\x7d`
parses to an object holding only an `agent_type` field. -/
def c2Loads : String → Option JsonObj := fun s =>
  if s = "\x7b\"agent_type\": \"calendar\"\x7d" then
    some [("agent_type", "calendar")]
  else none

/-- C2 counterexample: an orchestrator output that parses as JSON but is
missing required `RoutingDecision` fields does NOT yield the default
decision - the present `agent_type` field is kept (`calendar`, not
`gmail`), so only the absent fields are defaulted. -/
theorem c2_counterexample_missing_field_not_full_default :
    (classifyFromText c2Loads "list my events"
        "\x7b\"agent_type\": \"calendar\"\x7d").agent_type = "calendar"
    ∧ classifyFromText c2Loads "list my events"
        "\x7b\"agent_type\": \"calendar\"\x7d"
        ≠ defaultDecision "list my events" := by
  constructor
  · rfl
  · decide

/-- C2 witness: the amended theorem applied at a braceless output and at
a malformed span. -/
theorem c2_parse_failure_defaults_witness :
    classifyFromText c2Loads "hello" "plain text answer" = defaultDecision "hello"
    ∧ classifyFromText c2Loads "hello" "\x7bnot json\x7d" = defaultDecision "hello" :=
  ⟨(c2_parse_failure_defaults c2Loads "hello" "plain text answer").1
      (Or.inl (by decide)),
   (c2_parse_failure_defaults c2Loads "hello" "\x7bnot json\x7d").2.1
      "\x7bnot json\x7d" (by decide) (by decide)⟩

/-! ## C1 -/

/-- C1 (amended): when the specialist that runs first in a `both` task
signals termination (`end_conversation` invoked), the node nevertheless
routes to the sibling specialist - the both/first-half branch is tested
before the termination branch - recording `continue_conversation = false`
in its update; a specialist transitions the loop to the END sentinel on
termination only outside its first-half-of-both branch. -/
theorem c1_first_half_termination_still_chains (s : GraphState)
    (resp : String) (emailsAfter : List Email) (eventsAfter : List Event) :
    (s.agent_type.getD "gmail" = "both" →
      s.execution_order.getD "gmail_first" = "gmail_first" →
      (gmail_agent_node (AgentRunResult.ok resp true emailsAfter) s).goto
          = GotoTarget.calendar_agent
      ∧ (gmail_agent_node (AgentRunResult.ok resp true emailsAfter) s).update.continue_conversation
          = some false)
    ∧ (s.agent_type.getD "calendar" = "both" →
      s.execution_order.getD "gmail_first" = "calendar_first" →
      (calendar_agent_node (AgentRunResult.ok resp true eventsAfter) s).goto
          = GotoTarget.gmail_agent
      ∧ (calendar_agent_node (AgentRunResult.ok resp true eventsAfter) s).update.continue_conversation
          = some false)
    ∧ (¬ (s.agent_type.getD "gmail" = "both"
          ∧ s.execution_order.getD "gmail_first" = "gmail_first") →
      (gmail_agent_node (AgentRunResult.ok resp true emailsAfter) s).goto
          = GotoTarget.endGraph
      ∧ (gmail_agent_node (AgentRunResult.ok resp true emailsAfter) s).update.continue_conversation
          = some false)
    ∧ (¬ (s.agent_type.getD "calendar" = "both"
          ∧ s.execution_order.getD "gmail_first" = "calendar_first") →
      (calendar_agent_node (AgentRunResult.ok resp true eventsAfter) s).goto
          = GotoTarget.endGraph
      ∧ (calendar_agent_node (AgentRunResult.ok resp true eventsAfter) s).update.continue_conversation
          = some false) := by
  refine ⟨?_, ?_, ?_, ?_⟩
  · intro h1 h2
    rw [gmail_agent_node]
    simp [h1, h2]
  · intro h1 h2
    rw [calendar_agent_node]
    simp [h1, h2]
  · intro h
    rw [gmail_agent_node]
    rw [if_neg h]
    exact ⟨rfl, rfl⟩
  · intro h
    rw [calendar_agent_node]
    rw [if_neg h]
    exact ⟨rfl, rfl⟩

/-- A state mid-way through a `both, gmail_first` turn, as produced by the
orchestrator, used by the C1 counterexample and witness. -/
def c1State : GraphState :=
  ⟨[⟨"user", "archive the invite email and end the session"⟩],
   "archive the invite email and end the session", "", true,
   some "both", some "gmail_first",
   some "archive the invite email", some "nothing to do", none, none⟩

/-- C1 counterexample: in a `both, gmail_first` turn whose Gmail run
invoked `end_conversation` (terminate_requested = true), the node command
routes to the Calendar specialist - the second specialist IS invoked and
the loop does not transition to the END sentinel at this step. -/
theorem c1_counterexample_sibling_still_invoked :
    (gmail_agent_node (AgentRunResult.ok "Archived. Goodbye." true []) c1State).goto
        = GotoTarget.calendar_agent
    ∧ (gmail_agent_node (AgentRunResult.ok "Archived. Goodbye." true []) c1State).goto
        ≠ GotoTarget.endGraph := by decide

/-- C1 witness: the amended theorem applied at `c1State`. -/
theorem c1_first_half_termination_still_chains_witness :
    (gmail_agent_node (AgentRunResult.ok "Archived. Goodbye." true []) c1State).goto
        = GotoTarget.calendar_agent
    ∧ (gmail_agent_node (AgentRunResult.ok "Archived. Goodbye." true []) c1State).update.continue_conversation
        = some false :=
  (c1_first_half_termination_still_chains c1State "Archived. Goodbye." [] []).1
    (by decide) (by decide)

/-! ## C7 -/

/-- C7 (amended): the router special-cases only `terminate`, `calendar`
and `both`; every other `agent_type` value - including `orchestrator` and
arbitrary strings, since nothing validates the parsed value against the
five-value enum - is routed to the Gmail specialist. In particular an
`orchestrator`-classified turn DOES invoke a specialist. -/
theorem c7_router_defaults_to_gmail (s : GraphState) (a : String) :
    (s.agent_type = some "orchestrator" →
      route_to_agent s = "gmail_agent"
      ∧ orchPathMap (route_to_agent s) = some GraphNode.gmail_agent)
    ∧ (s.agent_type = some a → a ≠ "terminate" → a ≠ "calendar" → a ≠ "both" →
      route_to_agent s = "gmail_agent")
    ∧ (∃ loads q text,
        (classifyFromText loads q text).agent_type
          ∉ ["gmail", "calendar", "both", "orchestrator", "terminate"]) := by
  refine ⟨?_, ?_, ?_⟩
  · intro h
    constructor
    · rw [route_to_agent, h]
      rfl
    · rw [route_to_agent, h]
      rfl
  · intro h h1 h2 h3
    rw [route_to_agent, h]
    simp only [Option.getD_some]
    rw [if_neg h1, if_neg h2, if_neg h3]
  · exact ⟨fun _ => some [("agent_type", "weather")], "hi", "\x7b\x7d", by decide⟩

/-- A state the orchestrator has just classified as a meta-question about
the system itself. -/
def c7State : GraphState :=
  ⟨[⟨"user", "what can you do"⟩], "what can you do", "", true,
   some "orchestrator", some "gmail_first", none, none, none, none⟩

/-- C7 counterexample: with `agent_type = orchestrator` the conditional
edge routes to the Gmail specialist node, so a specialist IS invoked on an
orchestrator-classified turn. -/
theorem c7_counterexample_orchestrator_turn_hits_gmail :
    route_to_agent c7State = "gmail_agent"
    ∧ orchPathMap (route_to_agent c7State) = some GraphNode.gmail_agent := by
  decide

/-- C7 witness: the amended theorem applied at `c7State` and at the
arbitrary value `weather`. -/
theorem c7_router_defaults_to_gmail_witness :
    route_to_agent ⟨[], "q", "", true, some "weather", none, none, none, none, none⟩
      = "gmail_agent" :=
  (c7_router_defaults_to_gmail
      ⟨[], "q", "", true, some "weather", none, none, none, none, none⟩ "weather").2.1
    rfl (by decide) (by decide) (by decide)

/-! ## C4 -/

/-- C4: on a turn whose classification is `terminate`, the orchestrator
update sets `continue_conversation` to false and neither specialist can be
reached - but the router returns the string "END", which the conditional
edge registered in `create_graph` does not map (`orchPathMap` yields
`none`), instead of a clean transition to the END node; nothing between
the orchestrator and the conditional edge checks `continue_conversation`,
although the router comments assume the terminate case is unreachable. -/
theorem c4_terminate_sets_false_but_router_unmapped
    (loads : String → Option JsonObj) (s : GraphState) (text : String)
    (h : (classifyFromText loads s.user_query text).agent_type = "terminate") :
    (orchestrator_node loads (some text) s).continue_conversation = some false
    ∧ (applyUpdate s (orchestrator_node loads (some text) s)).continue_conversation = false
    ∧ route_to_agent (applyUpdate s (orchestrator_node loads (some text) s)) = "END"
    ∧ orchPathMap (route_to_agent (applyUpdate s (orchestrator_node loads (some text) s))) = none := by
  have hu : orchestrator_node loads (some text) s
      = { emptyUpdate with
            agent_type := some (classifyFromText loads s.user_query text).agent_type
            continue_conversation := some false
            execution_order := some (classifyFromText loads s.user_query text).execution_order
            gmail_instruction := some (classifyFromText loads s.user_query text).gmail_instruction
            calendar_instruction := some (classifyFromText loads s.user_query text).calendar_instruction } := by
    rw [orchestrator_node]
    simp [h]
  refine ⟨?_, ?_, ?_, ?_⟩
  · rw [hu]
  · rw [hu]
    rfl
  · rw [hu]
    rw [route_to_agent]
    simp [applyUpdate, h]
  · rw [hu]
    rw [route_to_agent]
    simp [applyUpdate, h, orchPathMap]

/-- A concrete stand-in for `json.loads` at the terminate classification
the C4 witness needs. -/
def c4Loads : String → Option JsonObj := fun s =>
  if s = "\x7b\"agent_type\": \"terminate\"\x7d" then
    some [("agent_type", "terminate")]
  else none

/-- The state of a turn whose user input is the exit command. -/
def c4State : GraphState :=
  ⟨[⟨"user", "quit"⟩], "quit", "", true, none, none, none, none, none, none⟩

/-- C4 witness: the theorem applied at the `quit` turn. -/
theorem c4_terminate_sets_false_but_router_unmapped_witness :
    (orchestrator_node c4Loads (some "\x7b\"agent_type\": \"terminate\"\x7d") c4State).continue_conversation
        = some false
    ∧ (applyUpdate c4State (orchestrator_node c4Loads
        (some "\x7b\"agent_type\": \"terminate\"\x7d") c4State)).continue_conversation = false
    ∧ route_to_agent (applyUpdate c4State (orchestrator_node c4Loads
        (some "\x7b\"agent_type\": \"terminate\"\x7d") c4State)) = "END"
    ∧ orchPathMap (route_to_agent (applyUpdate c4State (orchestrator_node c4Loads
        (some "\x7b\"agent_type\": \"terminate\"\x7d") c4State))) = none :=
  c4_terminate_sets_false_but_router_unmapped c4Loads c4State
    "\x7b\"agent_type\": \"terminate\"\x7d" (by decide)

/-! ## C3 -/

/-- Unfolding step of `joinSep` on a list of at least two parts. -/
theorem joinSep_cons_cons (sep a b : String) (l : List String) :
    joinSep sep (a :: b :: l) = a ++ sep ++ joinSep sep (b :: l) := rfl

/-- The join of parts ending in `p` ends in `p`. -/
theorem joinSep_concat (sep : String) (ps : List String) (p : String) :
    ∃ pre, joinSep sep (ps ++ [p]) = pre ++ p := by
  induction ps with
  | nil => exact ⟨"", rfl⟩
  | cons a rest ih =>
    obtain ⟨pre, hpre⟩ := ih
    cases rest with
    | nil =>
      refine ⟨a ++ sep, ?_⟩
      have h1 : ([a] : List String) ++ [p] = [a, p] := rfl
      rw [h1]
      exact joinSep_cons_cons sep a p []
    | cons b rest2 =>
      refine ⟨a ++ sep ++ pre, ?_⟩
      have hstep : joinSep sep (a :: (b :: rest2 ++ [p]))
          = a ++ sep ++ joinSep sep (b :: rest2 ++ [p]) := by
        rw [List.cons_append]
        exact joinSep_cons_cons sep a b (rest2 ++ [p])
      rw [List.cons_append, hstep, hpre]
      simp [String.append_assoc]

/-- Python `l[-n:]` of a list ending in `m` still ends in `m` when
`n ≥ 1`. -/
theorem lastN_append_singleton {α : Type} (n : Nat) (hn : 1 ≤ n)
    (ms : List α) (m : α) :
    lastN n (ms ++ [m]) = ms.drop (ms.length + 1 - n) ++ [m] := by
  rw [lastN, List.length_append, List.drop_append_eq_append_drop]
  have h1 : (ms ++ [m]).length = ms.length + 1 := by
    rw [List.length_append]
    rfl
  have h2 : ms.length + [m].length - n - ms.length = 0 := by
    simp only [List.length_cons, List.length_nil]
    omega
  rw [h2, List.drop_zero]
  have h3 : ([m] : List α).length = 1 := rfl
  rw [h3]

/-- The context built on a history ending in message `m` contains the
formatted `m`. -/
theorem context_contains_last_message (instruction : String)
    (ms : List Msg) (m : Msg) :
    ∃ pre post, buildConversationContext instruction (ms ++ [m])
      = pre ++ formatMsg m ++ post := by
  have hne : ms ++ [m] ≠ [] := by simp
  obtain ⟨pre0, hpre0⟩ :=
    joinSep_concat "\n" ((ms.drop (ms.length + 1 - 5)).map formatMsg) (formatMsg m)
  refine ⟨"Previous conversation:\n" ++ pre0,
    "\n\nCurrent question: " ++ instruction, ?_⟩
  rw [buildConversationContext]
  rw [if_neg (by simp [List.isEmpty_iff])]
  simp only [lastN_append_singleton 5 (by omega) ms m, List.map_append,
    List.map_cons, List.map_nil]
  rw [if_neg (by simp)]
  rw [hpre0]
  simp [String.append_assoc]

/-- C3: in a `both, calendar_first` turn the conditional edge routes to
the Calendar specialist (so Calendar runs strictly before Gmail, which is
reachable only through the Calendar node command), the Calendar node
command then routes to the Gmail specialist, and the context the Gmail
node builds from the updated state contains the Calendar response,
formatted as the appended assistant message. -/
theorem c3_calendar_first_orders_and_shares_context (s : GraphState)
    (resp : String) (endCalled : Bool) (eventsAfter : List Event)
    (h1 : s.agent_type = some "both") (h2 : s.execution_order = some "calendar_first") :
    route_to_agent s = "calendar_agent"
    ∧ orchPathMap (route_to_agent s) = some GraphNode.calendar_agent
    ∧ (calendar_agent_node (AgentRunResult.ok resp endCalled eventsAfter) s).goto
        = GotoTarget.gmail_agent
    ∧ (applyUpdate s (calendar_agent_node (AgentRunResult.ok resp endCalled eventsAfter) s).update).messages
        = s.messages ++ [⟨"assistant", resp⟩]
    ∧ (∃ pre post,
        gmailContext (applyUpdate s
          (calendar_agent_node (AgentRunResult.ok resp endCalled eventsAfter) s).update)
        = pre ++ ("assistant: " ++ resp) ++ post) := by
  have hroute : route_to_agent s = "calendar_agent" := by
    rw [route_to_agent, h1, h2]
    rfl
  have hcmd : (calendar_agent_node (AgentRunResult.ok resp endCalled eventsAfter) s).goto
      = GotoTarget.gmail_agent := by
    rw [calendar_agent_node]
    simp [h1, h2]
  have hupd : (calendar_agent_node (AgentRunResult.ok resp endCalled eventsAfter) s).update.messages
      = [⟨"assistant", resp⟩] := by
    rw [calendar_agent_node]
    simp [h1, h2]
  refine ⟨hroute, by rw [hroute]; rfl, hcmd, ?_, ?_⟩
  · show s.messages
        ++ (calendar_agent_node (AgentRunResult.ok resp endCalled eventsAfter) s).update.messages
      = s.messages ++ [⟨"assistant", resp⟩]
    rw [hupd]
  · have hmsgs : (applyUpdate s
        (calendar_agent_node (AgentRunResult.ok resp endCalled eventsAfter) s).update).messages
        = s.messages ++ [⟨"assistant", resp⟩] := by
      show s.messages
          ++ (calendar_agent_node (AgentRunResult.ok resp endCalled eventsAfter) s).update.messages
        = s.messages ++ [⟨"assistant", resp⟩]
      rw [hupd]
    rw [gmailContext, hmsgs]
    have hfmt : formatMsg ⟨"assistant", resp⟩ = "assistant: " ++ resp := rfl
    obtain ⟨pre, post, hc⟩ := context_contains_last_message
      ((applyUpdate s (calendar_agent_node
          (AgentRunResult.ok resp endCalled eventsAfter) s).update).gmail_instruction.getD
        (applyUpdate s (calendar_agent_node
          (AgentRunResult.ok resp endCalled eventsAfter) s).update).user_query)
      s.messages ⟨"assistant", resp⟩
    rw [hfmt] at hc
    exact ⟨pre, post, hc⟩

/-- A state the orchestrator has just classified as
`both, calendar_first`, used by the C3 witness. -/
def c3State : GraphState :=
  ⟨[⟨"user", "find my events for next week and email me a summary"⟩],
   "find my events for next week and email me a summary", "", true,
   some "both", some "calendar_first",
   some "email a summary of the events", some "list events for next week",
   none, none⟩

/-- C3 witness: the theorem applied at `c3State` with a concrete Calendar
response; the produced Gmail context is evaluated explicitly. -/
theorem c3_calendar_first_orders_and_shares_context_witness :
    route_to_agent c3State = "calendar_agent"
    ∧ orchPathMap (route_to_agent c3State) = some GraphNode.calendar_agent
    ∧ (calendar_agent_node (AgentRunResult.ok "You have 2 events." false []) c3State).goto
        = GotoTarget.gmail_agent
    ∧ (applyUpdate c3State (calendar_agent_node
        (AgentRunResult.ok "You have 2 events." false []) c3State).update).messages
        = c3State.messages ++ [⟨"assistant", "You have 2 events."⟩]
    ∧ (∃ pre post,
        gmailContext (applyUpdate c3State
          (calendar_agent_node (AgentRunResult.ok "You have 2 events." false []) c3State).update)
        = pre ++ ("assistant: " ++ "You have 2 events.") ++ post) :=
  c3_calendar_first_orders_and_shares_context c3State "You have 2 events." false []
    rfl rfl

/-! ## C5 -/

/-- The first character of an append is the first character of a
non-empty left part. -/
theorem string_head_append (a b : String) (c : Char)
    (h : a.data.head? = some c) : (a ++ b).data.head? = some c := by
  rw [String.data_append, List.head?_append, h]
  rfl

/-- Two strings with distinct first characters differ. -/
theorem string_ne_of_head_ne (a b : String) (ca cb : Char)
    (ha : a.data.head? = some ca) (hb : b.data.head? = some cb)
    (hc : ca ≠ cb) : a ≠ b := by
  intro h
  rw [h, hb] at ha
  exact hc (Option.some.inj ha).symm

/-- The post-resolution output of `read_email` starts with `C` (fetch
failed) or a newline (the formatted detail block). -/
theorem readFetch_head (g : String → Option Email) (em : Email) :
    (readFetch g em).data.head? = some 'C'
    ∨ (readFetch g em).data.head? = some '\n' := by
  rw [readFetch]
  cases h : g em.id with
  | none =>
    left
    rfl
  | some email =>
    right
    show (("\n" ++ eqRule) ++ "\n"
        ++ joinSep "\n" ["EMAIL DETAILS", eqRule, "\nSubject: " ++ email.subject,
            "From: " ++ email.from_, "Date: " ++ email.date, "\n" ++ dashRule,
            "\n" ++ email.body.take 1500, "\n" ++ dashRule, eqRule]).data.head?
      = some '\n'
    exact string_head_append _ _ '\n'
      (string_head_append _ _ '\n' (string_head_append _ _ '\n' rfl))

/-- The out-of-range message starts with `I`. -/
theorem invalidNumberMsg_head (n : Nat) :
    (invalidNumberMsg n).data.head? = some 'I' := by
  rw [invalidNumberMsg]
  exact string_head_append _ _ 'I' (string_head_append _ _ 'I' rfl)

/-- `readFetch` output never collides with either guard message. -/
theorem readFetch_ne_guards (g : String → Option Email) (em : Email) (n : Nat) :
    readFetch g em ≠ noEmailsReadMsg ∧ readFetch g em ≠ invalidNumberMsg n := by
  rcases readFetch_head g em with h | h
  · exact ⟨string_ne_of_head_ne _ _ 'C' 'N' h rfl (by decide),
      string_ne_of_head_ne _ _ 'C' 'I' h (invalidNumberMsg_head n) (by decide)⟩
  · exact ⟨string_ne_of_head_ne _ _ '\n' 'N' h rfl (by decide),
      string_ne_of_head_ne _ _ '\n' 'I' h (invalidNumberMsg_head n) (by decide)⟩

/-- C5: ordinal resolution over the cached email list is total and
1-indexed: neither tool can raise the modelled `IndexError`; `read_email`
reaches the fetch-and-format step exactly when `1 ≤ k ≤ N`; and whenever
the cache is empty or `k` is out of range both tools return one of the
two reported guard messages. -/
theorem c5_ordinal_resolution_bounds (g : String → Option Email)
    (svc : String → String → Bool) (emails : List Email) (k : Int) (body : String) :
    read_email g emails k ≠ ToolOutcome.indexError
    ∧ reply_to_email svc emails k body ≠ ToolOutcome.indexError
    ∧ ((1 ≤ k ∧ k ≤ (emails.length : Int)) ↔
        ∃ em, emails[(k - 1).toNat]? = some em
          ∧ read_email g emails k = ToolOutcome.ret (readFetch g em))
    ∧ ((emails.isEmpty = true ∨ k < 1 ∨ (emails.length : Int) < k) →
        (read_email g emails k = ToolOutcome.ret noEmailsReadMsg
          ∨ read_email g emails k = ToolOutcome.ret (invalidNumberMsg emails.length))
        ∧ (reply_to_email svc emails k body = ToolOutcome.ret noEmailsReplyMsg
          ∨ reply_to_email svc emails k body = ToolOutcome.ret (invalidNumberMsg emails.length))) := by
  refine ⟨?_, ?_, ⟨?_, ?_⟩, ?_⟩
  · rw [read_email]
    split
    · simp
    · split
      · simp
      · rename_i hempty hrange
        split
        · rename_i hnone
          push_neg at hrange
          have hidx : (k - 1).toNat < emails.length := by omega
          have hsome := List.getElem?_eq_some.mpr ⟨hidx, rfl⟩
          rw [hnone] at hsome
          exact absurd hsome (by simp)
        · simp
  · rw [reply_to_email]
    split
    · simp
    · split
      · simp
      · rename_i hempty hrange
        split
        · rename_i hnone
          push_neg at hrange
          have hidx : (k - 1).toNat < emails.length := by omega
          have hsome := List.getElem?_eq_some.mpr ⟨hidx, rfl⟩
          rw [hnone] at hsome
          exact absurd hsome (by simp)
        · simp
  · rintro ⟨h1, h2⟩
    have hidx : (k - 1).toNat < emails.length := by omega
    have hempty : ¬ (emails.isEmpty = true) := by
      rw [List.isEmpty_iff]
      intro h0
      rw [h0] at h2
      simp at h2
      omega
    have hrange : ¬ (k < 1 ∨ (emails.length : Int) < k) := by
      push_neg
      exact ⟨h1, h2⟩
    have hsome := List.getElem?_eq_some.mpr ⟨hidx, rfl⟩
    refine ⟨emails[(k - 1).toNat], hsome, ?_⟩
    rw [read_email, if_neg hempty, if_neg hrange, hsome]
  · rintro ⟨em, hsome, hret⟩
    by_contra hc
    push_neg at hc
    by_cases hempty : emails.isEmpty = true
    · rw [read_email, if_pos hempty] at hret
      exact absurd (ToolOutcome.ret.inj hret).symm (readFetch_ne_guards g em emails.length).1
    · have hrange : k < 1 ∨ (emails.length : Int) < k := by
        rcases lt_or_le k 1 with h | h
        · exact Or.inl h
        · exact Or.inr (by
            rcases lt_or_le (emails.length : Int) k with h2 | h2
            · exact h2
            · exact absurd h2 (by intro h2; exact absurd (hc h) (by omega)))
      rw [read_email, if_neg hempty, if_pos hrange] at hret
      exact absurd (ToolOutcome.ret.inj hret).symm (readFetch_ne_guards g em emails.length).2
  · intro hg
    constructor
    · by_cases hempty : emails.isEmpty = true
      · left
        rw [read_email, if_pos hempty]
      · right
        have hrange : k < 1 ∨ (emails.length : Int) < k := by
          rcases hg with h | h | h
          · exact absurd h hempty
          · exact Or.inl h
          · exact Or.inr h
        rw [read_email, if_neg hempty, if_pos hrange]
    · by_cases hempty : emails.isEmpty = true
      · left
        rw [reply_to_email, if_pos hempty]
      · right
        have hrange : k < 1 ∨ (emails.length : Int) < k := by
          rcases hg with h | h | h
          · exact absurd h hempty
          · exact Or.inl h
          · exact Or.inr h
        rw [reply_to_email, if_neg hempty, if_pos hrange]

/-- A concrete two-email cache for the C5 witness. -/
def c5Email1 : Email :=
  ⟨"id1", "Meeting", "alice@example.com", "2026-01-01", "See you at noon"⟩

/-- Second entry of the concrete C5 cache. -/
def c5Email2 : Email :=
  ⟨"id2", "Invoice", "bob@example.com", "2026-01-02", "Attached invoice"⟩

/-- A Gmail service stub whose detail fetch finds nothing. -/
def c5Get : String → Option Email := fun _ => none

/-- A Gmail reply service stub that always reports success. -/
def c5Svc : String → String → Bool := fun _ _ => true

/-- C5 witness: the theorem applied to a two-email cache at the in-range
ordinal 2 and at the out-of-range ordinal 5. -/
theorem c5_ordinal_resolution_bounds_witness :
    (∃ em, ([c5Email1, c5Email2])[((2 : Int) - 1).toNat]? = some em
      ∧ read_email c5Get [c5Email1, c5Email2] 2 = ToolOutcome.ret (readFetch c5Get em))
    ∧ (read_email c5Get [c5Email1, c5Email2] 5 = ToolOutcome.ret noEmailsReadMsg
      ∨ read_email c5Get [c5Email1, c5Email2] 5
          = ToolOutcome.ret (invalidNumberMsg 2)) :=
  ⟨(c5_ordinal_resolution_bounds c5Get c5Svc [c5Email1, c5Email2] 2 "ok").2.2.1.mp
      (by decide),
   ((c5_ordinal_resolution_bounds c5Get c5Svc [c5Email1, c5Email2] 5 "ok").2.2.2
      (by decide)).1⟩

/-- Older history in front of the C8 witness window. -/
def c8Pre : List Msg := [⟨"user", "old question"⟩, ⟨"assistant", "old answer"⟩]

/-- A five-message tail for the C8 witness window. -/
def c8Tail : List Msg :=
  [⟨"user", "m1"⟩, ⟨"assistant", "m2"⟩, ⟨"user", "m3"⟩,
   ⟨"assistant", "m4"⟩, ⟨"user", "m5"⟩]

/-- C8 witness: prepending older history in front of a five-message tail
leaves the built context unchanged. -/
theorem c8_context_bounded_to_last_five_witness :
    buildConversationContext "current question" (c8Pre ++ c8Tail)
      = buildConversationContext "current question" c8Tail :=
  (c8_context_bounded_to_last_five "current question" c8Pre c8Tail).2.2 (by decide)
